import Mathlib

/-!
Shallow embedding of `src/shared_ptr.h`: a manual reference-counted
ownership primitive (`shared_ptr` / `weak_ptr` over a `control_block`).

Pointers are modelled as `Option Nat` (`none` = `nullptr`).  A control
block carries the two counters `ref_cnt` and `weak_cnt` exactly as in the
source; the virtual `delete_object` call and the `delete cb` deallocation
are recorded as ghost events.  Handle-level constructors and operators are
embedded as pure functions over an environment `List control_block`
indexed by block ids, and the counting discipline over whole sequences of
handle operations is embedded as a small step machine (`step` / `run`).
-/

set_option autoImplicit false
set_option linter.unusedVariables false
set_option linter.unusedTactic false

/-- The shared bookkeeping object of `shared_ptr.h`: `ref_cnt` starts at 1,
`weak_cnt` at 0. -/
structure control_block where
  ref_cnt : Nat
  weak_cnt : Nat
deriving DecidableEq, Repr

instance : Inhabited control_block := ⟨⟨0, 0⟩⟩

/-- Embeds `control_block::add_ref`: `ref_cnt++`. -/
def control_block.add_ref (c : control_block) : control_block :=
  { c with ref_cnt := c.ref_cnt + 1 }

/-- Embeds `control_block::add_weak`: `weak_cnt++`. -/
def control_block.add_weak (c : control_block) : control_block :=
  { c with weak_cnt := c.weak_cnt + 1 }

/-- Embeds `control_block::use_count`: returns `ref_cnt`. -/
def control_block.use_count (c : control_block) : Nat := c.ref_cnt

/-- Embeds `control_block::weak_count`: returns `weak_cnt`. -/
def control_block.weak_count (c : control_block) : Nat := c.weak_cnt

/-- An owning handle: `control_block *cb; T *ptr;` with `none` for null. -/
structure shared_ptr where
  cb : Option Nat
  ptr : Option Nat
deriving DecidableEq, Repr

/-- An observer handle: same two fields as `shared_ptr`. -/
structure weak_ptr where
  cb : Option Nat
  ptr : Option Nat
deriving DecidableEq, Repr

/-- Embeds `shared_ptr::get`: returns the value pointer. -/
def shared_ptr.get (h : shared_ptr) : Option Nat := h.ptr

/-- Embeds `shared_ptr::use_count`: the block's `use_count()` when a block is
present, otherwise 0. -/
def shared_ptr.use_count (env : List control_block) (h : shared_ptr) : Nat :=
  match h.cb with
  | some i => (env.getD i default).use_count
  | none => 0

/-! ### The step machine for sequences of handle operations on one block

One control block, created with `ref_cnt = 1` by the handle that made it.
Ghost fields count the live owning/observer handles and the
`delete_object` / `delete cb` events; `Op` lists the count-relevant
operations a sequence of handle constructions and destructions can
perform on the block.  An operation is only enabled when a live handle of
the corresponding kind exists (`owners`/`observers` nonzero). -/

structure MachineState where
  cb : control_block
  owners : Nat
  observers : Nat
  destroyCount : Nat
  freeCount : Nat
deriving DecidableEq, Repr

/-- The count-relevant handle operations on one control block. -/
inductive Op where
  | copyShared
  | destroyShared
  | weakFromShared
  | copyWeak
  | destroyWeak
  | lockOp
deriving DecidableEq, Repr

/-- One handle operation.  `destroyShared` is `shared_ptr::~shared_ptr`:
`release_ref()` (which calls `delete_object()` exactly when the decrement
takes `ref_cnt` to 0) followed by `delete cb` when both counts are 0.
`destroyWeak` is `weak_ptr::~weak_ptr`: `release_weak()` followed by the
same zero/zero check.  `lockOp` is `weak_ptr::lock`, which promotes (via
the `weak_ptr` conversion constructor, an `add_ref`) only when
`use_count() != 0`.  `destroyCount` counts `delete_object()` invocations,
`freeCount` counts `delete cb` events. -/
def step (s : MachineState) : Op → Option MachineState
  | .copyShared =>
      if s.owners = 0 then none else
      some { s with cb := s.cb.add_ref, owners := s.owners + 1 }
  | .destroyShared =>
      if s.owners = 0 then none else
      let r := s.cb.ref_cnt - 1
      some { cb := ⟨r, s.cb.weak_cnt⟩,
             owners := s.owners - 1,
             observers := s.observers,
             destroyCount := s.destroyCount + (if r = 0 then 1 else 0),
             freeCount := s.freeCount + (if r = 0 ∧ s.cb.weak_cnt = 0 then 1 else 0) }
  | .weakFromShared =>
      if s.owners = 0 then none else
      some { s with cb := s.cb.add_weak, observers := s.observers + 1 }
  | .copyWeak =>
      if s.observers = 0 then none else
      some { s with cb := s.cb.add_weak, observers := s.observers + 1 }
  | .destroyWeak =>
      if s.observers = 0 then none else
      let w := s.cb.weak_cnt - 1
      some { cb := ⟨s.cb.ref_cnt, w⟩,
             owners := s.owners,
             observers := s.observers - 1,
             destroyCount := s.destroyCount,
             freeCount := s.freeCount + (if s.cb.ref_cnt = 0 ∧ w = 0 then 1 else 0) }
  | .lockOp =>
      if s.observers = 0 then none else
      if s.cb.ref_cnt ≠ 0 then
        some { s with cb := s.cb.add_ref, owners := s.owners + 1 }
      else
        some s

/-- The state right after a handle creates the block: `ref_cnt = 1`,
`weak_cnt = 0`, one live owner, no destruction events yet. -/
def initState : MachineState :=
  ⟨⟨1, 0⟩, 1, 0, 0, 0⟩

/-- Run a sequence of handle operations; `none` when some operation has no
live handle to act through. -/
def run : MachineState → List Op → Option MachineState
  | s, [] => some s
  | s, op :: rest =>
      match step s op with
      | some s' => run s' rest
      | none => none

/-- The counting invariant tying the code's counters to the ghost handle
counts and destruction events. -/
def CountInv (s : MachineState) : Prop :=
  s.cb.ref_cnt = s.owners ∧
  s.cb.weak_cnt = s.observers ∧
  s.destroyCount = (if s.owners = 0 then 1 else 0) ∧
  s.freeCount = (if s.owners = 0 ∧ s.observers = 0 then 1 else 0)

theorem countInv_initState : CountInv initState := by
  simp [CountInv, initState]

theorem countInv_step {s s' : MachineState} {op : Op} (hs : CountInv s)
    (h : step s op = some s') : CountInv s' := by
  obtain ⟨h1, h2, h3, h4⟩ := hs
  cases op <;> simp only [step] at h
  case copyShared =>
    split at h
    · exact absurd h (by simp)
    · rename_i how
      cases h
      refine ⟨by simp [control_block.add_ref, h1], by simpa using h2, ?_, ?_⟩
      · simp only [h3]; split <;> (try split) <;> omega
      · simp only [h4]; split <;> (try split) <;> omega
  case destroyShared =>
    split at h
    · exact absurd h (by simp)
    · rename_i how
      cases h
      refine ⟨by simp [h1], by simpa using h2, ?_, ?_⟩
      · simp only [h1, h3, if_neg how]
        split <;> (try split) <;> omega
      · simp only [h1, h2, h4]
        rw [if_neg (fun hp => how hp.1)]
        split <;> (try split) <;> omega
  case weakFromShared =>
    split at h
    · exact absurd h (by simp)
    · rename_i how
      cases h
      refine ⟨by simpa [control_block.add_weak] using h1,
              by simp [control_block.add_weak, h2], by simpa using h3, ?_⟩
      · simp only [control_block.add_weak, h4]
        split <;> (try split) <;> omega
  case copyWeak =>
    split at h
    · exact absurd h (by simp)
    · rename_i how
      cases h
      refine ⟨by simpa [control_block.add_weak] using h1,
              by simp [control_block.add_weak, h2], by simpa using h3, ?_⟩
      · simp only [control_block.add_weak, h4]
        split <;> (try split) <;> omega
  case destroyWeak =>
    split at h
    · exact absurd h (by simp)
    · rename_i how
      cases h
      refine ⟨by simpa using h1, by simp [h2], by simpa using h3, ?_⟩
      · simp only [h1, h2, h4]
        rw [if_neg (fun hp => how hp.2)]
        split <;> (try split) <;> omega
  case lockOp =>
    split at h
    · exact absurd h (by simp)
    · rename_i how
      split at h
      · rename_i hr
        cases h
        have hown : s.owners ≠ 0 := by rw [h1] at hr; exact hr
        refine ⟨by simp [control_block.add_ref, h1], by simpa using h2, ?_, ?_⟩
        · simp only [h3]; split <;> (try split) <;> omega
        · simp only [h4]; split <;> (try split) <;> omega
      · cases h
        exact ⟨h1, h2, h3, h4⟩

theorem countInv_run {s s' : MachineState} {ops : List Op}
    (h : run s ops = some s') (hs : CountInv s) : CountInv s' := by
  induction ops generalizing s with
  | nil => cases h; exact hs
  | cons op rest ih =>
      simp only [run] at h
      cases hstep : step s op with
      | none => rw [hstep] at h; cases h
      | some s1 =>
          rw [hstep] at h
          exact ih h (countInv_step hs hstep)

theorem countInv_reachable {s : MachineState} {ops : List Op}
    (h : run initState ops = some s) : CountInv s :=
  countInv_run h countInv_initState

/-! ### Handle-level constructors and operators over an environment -/

/-- Embeds the aliasing constructor `shared_ptr(shared_ptr<Y> const &sp, T *ptr)`.
Its body reads `cb = sp.cb; ptr = ptr; if (cb != nullptr) cb->add_ref();`.
The statement `ptr = ptr;` assigns the constructor parameter to itself, so
the member `ptr` keeps its default-initialised value `nullptr`. -/
def aliasConstruct (env : List control_block) (sp : shared_ptr)
    (targetPtr : Option Nat) : shared_ptr × List control_block :=
  let cb := sp.cb
  let memberPtr : Option Nat := none
  match cb with
  | some i => (⟨cb, memberPtr⟩, env.set i ((env.getD i default).add_ref))
  | none => (⟨cb, memberPtr⟩, env)

/-- Embeds `weak_ptr::lock`: when a control block is present and its
`use_count()` is nonzero, returns `shared_ptr<T>(*this)` - the conversion
constructor from `weak_ptr` copies `ptr` and `cb` and calls `add_ref()`;
otherwise returns the default-constructed empty handle. -/
def weak_ptr.lock (env : List control_block) (w : weak_ptr) :
    shared_ptr × List control_block :=
  match w.cb with
  | some i =>
      if (env.getD i default).use_count ≠ 0 then
        (⟨some i, w.ptr⟩, env.set i ((env.getD i default).add_ref))
      else
        (⟨none, none⟩, env)
  | none => (⟨none, none⟩, env)

/-- Result of running a `shared_ptr` destructor: the updated environment
and the `delete_object()` / `delete cb` events it triggered. -/
structure dtorEffect where
  env : List control_block
  deleteObjectCalls : Nat
  deleteCbCalls : Nat
deriving DecidableEq, Repr

/-- Embeds `shared_ptr::~shared_ptr`: when a block is present,
`release_ref()` decrements `ref_cnt` and calls `delete_object()` exactly
when the decrement reaches 0; then `delete cb` runs when
`use_count() == 0 && weak_count() == 0`.  The freed block's record is kept
in the environment as a ghost so counts can still be inspected. -/
def shared_ptr.destruct (env : List control_block) (h : shared_ptr) : dtorEffect :=
  match h.cb with
  | none => ⟨env, 0, 0⟩
  | some i =>
      let c := env.getD i default
      let r := c.ref_cnt - 1
      ⟨env.set i ⟨r, c.weak_cnt⟩,
       if r = 0 then 1 else 0,
       if r = 0 ∧ c.weak_cnt = 0 then 1 else 0⟩

/-- Embeds the move constructor `shared_ptr(shared_ptr &&r)`: it copies the
two fields and nulls the source; no counter is touched.  Returns the pair
(destination, source after the move). -/
def moveConstruct (src : shared_ptr) : shared_ptr × shared_ptr :=
  (⟨src.cb, src.ptr⟩, ⟨none, none⟩)

/-- Result of a move assignment: both handles afterwards, plus the
environment after the temporary's destructor ran. -/
structure moveAssignResult where
  dstAfter : shared_ptr
  srcAfter : shared_ptr
  env : List control_block
deriving DecidableEq, Repr

/-- Embeds `shared_ptr::operator=(shared_ptr &&other)` for two distinct
handle objects: the body is `shared_ptr(std::move(other)).swap(*this);` -
a temporary is move-constructed from `other` (emptying it), swapped with
`*this`, and the temporary's destructor then releases the destination's
previous state. -/
def moveAssign (env : List control_block) (dst src : shared_ptr) : moveAssignResult :=
  let temp := src
  let srcAfter : shared_ptr := ⟨none, none⟩
  let dstAfter := temp
  let tempAfter := dst
  let eff := shared_ptr.destruct env tempAfter
  ⟨dstAfter, srcAfter, eff.env⟩

/-- Outcome of the raw-pointer constructor: the constructed handle (or
`none` when the exception propagates), the freshly allocated control block
if any, and the log of pointers the deleter was invoked on. -/
structure rawCtorOutcome where
  handle : Option shared_ptr
  newBlock : Option control_block
  deleterCalls : List (Option Nat)
deriving DecidableEq, Repr

/-- Embeds `shared_ptr(Y *p, D deleter)`: the body is
`try \x7b cb = new cb_ptr(p, deleter); ptr = p; \x7d catch (...) \x7b deleter(p); throw; \x7d`.
`allocOk` says whether `new cb_ptr(p, deleter)` succeeds.  On success the
fresh block (id 0 of a fresh environment) starts with `ref_cnt = 1`,
`weak_cnt = 0` and the deleter is not invoked; on failure the deleter is
invoked on `p` exactly once and the exception propagates (no handle). -/
def sharedFromRaw (allocOk : Bool) (p : Option Nat) : rawCtorOutcome :=
  if allocOk then
    ⟨some ⟨some 0, p⟩, some ⟨1, 0⟩, []⟩
  else
    ⟨none, none, [p]⟩

/-- Embeds `operator==(const shared_ptr<A> &, const shared_ptr<B> &)`:
`first.get() == second.get()`. -/
def sp_eq (a b : shared_ptr) : Bool := a.get == b.get

/-- Embeds `operator!=(const shared_ptr<A> &, const shared_ptr<B> &)`:
`first.get() != second.get()`. -/
def sp_ne (a b : shared_ptr) : Bool := a.get != b.get

/-- Embeds `operator==(std::nullptr_t, const shared_ptr<B> &)`:
`nullptr == second.get()`. -/
def sp_eq_null_left (b : shared_ptr) : Bool := (none : Option Nat) == b.get

/-- Embeds `operator==(const shared_ptr<A> &, std::nullptr_t)`:
`first.get() == nullptr`. -/
def sp_eq_null_right (a : shared_ptr) : Bool := a.get == (none : Option Nat)

/-- Embeds `operator!=(std::nullptr_t, const shared_ptr<B> &)`. -/
def sp_ne_null_left (b : shared_ptr) : Bool := (none : Option Nat) != b.get

/-- Embeds `operator!=(const shared_ptr<A> &, std::nullptr_t)`. -/
def sp_ne_null_right (a : shared_ptr) : Bool := a.get != (none : Option Nat)

/-- State of a colocated block `cb_obj<Y>`: the two counters plus the
value living in the block's inline `data` storage (`none` once the
in-place destructor has run). -/
structure cb_obj_state where
  ref_cnt : Nat
  weak_cnt : Nat
  value : Option Nat
deriving DecidableEq, Repr

/-- Kind of one caller argument to `make_shared<U>(args...)`, as it
matters to the forwarding expression: an lvalue of the payload type `U`
itself, an rvalue of type `U`, or an argument whose type is not `U`
(for example one of several constructor arguments, or a convertible
argument of another type). -/
inductive argKind where
  | lvalueOfU
  | rvalueOfU
  | otherType
deriving DecidableEq, Repr

/-- Embeds the forwarding of one argument in `make_shared`'s body, which
reads `new cb_obj<U>(std::forward<U>(args)...)` - `std::forward<U>`, the
payload type, instead of `std::forward<Args>`.  `std::forward<U>` takes a
`std::remove_reference_t<U> &` (or `&&`) parameter, so an argument whose
type is not `U` does not bind and the call is ill-formed (`none`); an
argument of type `U` binds and is cast to `U &&`, an rvalue, so the
payload is constructed by moving from the caller's argument even when the
caller passed an lvalue (`some true` = the caller's argument is moved
from). -/
def forward_U : argKind → Option Bool
  | .lvalueOfU => some true
  | .rvalueOfU => some true
  | .otherType => none

/-- Result of `make_shared`: the returned handle, the state of the single
freshly allocated `cb_obj`, the number of allocation events, and, per
caller argument, whether the caller's argument was moved from. -/
structure makeSharedResult where
  sp : shared_ptr
  blockState : cb_obj_state
  allocations : Nat
  movedFromArgs : List Bool
deriving DecidableEq, Repr

/-- Embeds `make_shared<U>(args...)`: one `new cb_obj<U>(...)` allocation
whose constructor placement-constructs the value into the block's inline
storage from `std::forward<U>(args)...` (see `forward_U`); `none` when
that forwarding expression is ill-formed, i.e. when some argument's type
is not `U`.  On success the handle's `cb` is the new block and its `ptr`
is `tmp->get()`, the non-null address of the inline `data` member,
modelled as `some inlineAddr`; `v` is the constructed payload value. -/
def make_shared (inlineAddr v : Nat) (args : List argKind) :
    Option makeSharedResult :=
  if args.all (fun a => (forward_U a).isSome) then
    some ⟨⟨some 0, some inlineAddr⟩, ⟨1, 0, some v⟩, 1,
          args.map (fun a => (forward_U a).getD false)⟩
  else
    none

/-- Destruction events of an owning handle over a colocated block. -/
structure colocatedDtorEffect where
  blockState : cb_obj_state
  teardownCalls : Nat
  valueDeallocations : Nat
  blockDeallocations : Nat
deriving DecidableEq, Repr

/-- Embeds `shared_ptr::~shared_ptr` on a handle over a `cb_obj` block:
`release_ref()` calls `cb_obj::delete_object()` exactly when the count
reaches 0, and that override runs `reinterpret_cast<Y *>(&data)->~Y()` -
an in-place teardown that deallocates nothing - so `valueDeallocations`
is always 0; `delete cb` (the single deallocation, which also reclaims
the inline value storage) runs when both counts are 0. -/
def colocatedDestroy (st : cb_obj_state) (h : shared_ptr) : colocatedDtorEffect :=
  match h.cb with
  | none => ⟨st, 0, 0, 0⟩
  | some _ =>
      let r := st.ref_cnt - 1
      ⟨⟨r, st.weak_cnt, if r = 0 then none else st.value⟩,
       if r = 0 then 1 else 0,
       0,
       if r = 0 ∧ st.weak_cnt = 0 then 1 else 0⟩

/-- Embeds `shared_ptr(std::nullptr_t, D deleter)`: the constructor body is
empty, so both members keep their default-initialised null values, no
control block is allocated, and the deleter is never invoked.  The second
component logs the pointers the deleter was invoked on (none). -/
def sharedFromNullptr (deleterTag : Nat) : shared_ptr × List (Option Nat) :=
  (⟨none, none⟩, [])

/-! ### Helper lemmas -/

theorem getD_set_self (l : List control_block) (i : Nat) (c : control_block)
    (h : i < l.length) : (l.set i c).getD i default = c := by
  rw [List.getD_eq_getElem _ _ (by simpa using h)]
  simp

theorem getD_set_ne (l : List control_block) (i j : Nat) (c : control_block)
    (hne : j ≠ i) : (l.set i c).getD j default = l.getD j default := by
  rcases Nat.lt_or_ge j l.length with hj | hj
  · rw [List.getD_eq_getElem _ _ (by simpa using hj), List.getD_eq_getElem _ _ hj]
    exact List.getElem_set_ne (fun he => hne he.symm) _
  · rw [List.getD_eq_default _ _ (by simpa using hj), List.getD_eq_default _ _ hj]

/-! ### The claims -/

/-- C1: the claim states the aliasing constructor yields a handle whose
`get()` returns the supplied target pointer.  On the code this fails:
aliasing a live source handle (block 0 with `ref_cnt = 1`, stored pointer
1) with target pointer 2 does share the block and increment the strong
count, but the produced handle's `get()` is `nullptr`, not the target,
because the constructor's statement `ptr = ptr;` assigns the parameter to
itself and the member pointer keeps its default null value. -/
theorem C1_alias_target_dropped :
    (aliasConstruct [⟨1, 0⟩] ⟨some 0, some 1⟩ (some 2)).1.get = none ∧
    (aliasConstruct [⟨1, 0⟩] ⟨some 0, some 1⟩ (some 2)).1.get ≠ some 2 ∧
    (aliasConstruct [⟨1, 0⟩] ⟨some 0, some 1⟩ (some 2)).1.cb = some 0 ∧
    ((aliasConstruct [⟨1, 0⟩] ⟨some 0, some 1⟩ (some 2)).2.getD 0 default).ref_cnt = 2 := by
  decide

/-- C6: raw-pointer construction with a deletion strategy: when allocation
of the control block fails, the deleter is invoked on the pointer exactly
once and the failure propagates with no handle and no block; when
allocation succeeds, the handle owns the pointer through a fresh block
with strong count 1 and weak count 0, and the deleter is not invoked. -/
theorem C6_raw_ctor_no_leak (p : Option Nat) :
    (sharedFromRaw false p).deleterCalls = [p] ∧
    (sharedFromRaw false p).handle = none ∧
    (sharedFromRaw false p).newBlock = none ∧
    (sharedFromRaw true p).deleterCalls = [] ∧
    (sharedFromRaw true p).handle = some ⟨some 0, p⟩ ∧
    (sharedFromRaw true p).newBlock = some ⟨1, 0⟩ := by
  exact ⟨rfl, rfl, rfl, rfl, rfl, rfl⟩

/-- C8: `a == b` holds iff `a.get() == b.get()`, `a != b` is its negation,
the null-literal comparisons compare against a null value pointer, and
handles over distinct control blocks with equal value pointers compare
equal. -/
theorem C8_eq_compares_value_pointers (a b : shared_ptr) :
    (sp_eq a b = true ↔ a.get = b.get) ∧
    sp_ne a b = !sp_eq a b ∧
    (sp_eq_null_right a = true ↔ a.get = none) ∧
    (sp_eq_null_left b = true ↔ b.get = none) ∧
    sp_ne_null_right a = !sp_eq_null_right a ∧
    sp_ne_null_left b = !sp_eq_null_left b ∧
    (a.cb ≠ b.cb → a.get = b.get → sp_eq a b = true) := by
  refine ⟨?_, ?_, ?_, ?_, ?_, ?_, ?_⟩
  · simp [sp_eq]
  · simp [sp_ne, sp_eq, bne]
  · simp [sp_eq_null_right]
  · simp only [sp_eq_null_left, beq_iff_eq]
    exact eq_comm
  · simp [sp_ne_null_right, sp_eq_null_right, bne]
  · simp [sp_ne_null_left, sp_eq_null_left, bne]
  · intro _ hp; simp [sp_eq, hp]

/-- C8 witness: two handles over distinct control blocks (ids 0 and 1)
whose value pointers are both 7 compare equal, and the remaining
comparison laws hold at this input. -/
theorem C8_eq_compares_value_pointers_witness :
    (⟨some 0, some 7⟩ : shared_ptr).cb ≠ (⟨some 1, some 7⟩ : shared_ptr).cb ∧
    (⟨some 0, some 7⟩ : shared_ptr).get = (⟨some 1, some 7⟩ : shared_ptr).get ∧
    sp_eq ⟨some 0, some 7⟩ ⟨some 1, some 7⟩ = true :=
  ⟨by decide, by decide,
   (C8_eq_compares_value_pointers ⟨some 0, some 7⟩ ⟨some 1, some 7⟩).2.2.2.2.2.2
     (by decide) (by decide)⟩

/-- C9: the claim states the construction helper performs a single
colocated allocation and constructs the value in place for every value
type and constructor arguments.  On the code this fails: the body
forwards the arguments as `std::forward<U>(args)...` (the payload type,
not `std::forward<Args>`), so a two-argument construction such as
`make_shared<std::pair<int, int>>(1, 2)` is ill-formed - both `int`
arguments fail to bind to `std::forward<U>`'s parameter - and an lvalue
argument of the payload type itself is moved from rather than copied.
In the one shape the slip leaves intact, a single rvalue argument of type
`U`, the helper behaves as claimed: one allocation housing bookkeeping
and value, `get()` the non-null inline storage address, strong count 1,
and destroying the last owner runs the in-place teardown exactly once,
with no separate deallocation for the value and exactly one block
deallocation. -/
theorem C9_make_shared_forwarding_bug :
    make_shared 0 5 [argKind.otherType, argKind.otherType] = none ∧
    forward_U argKind.lvalueOfU = some true ∧
    make_shared 0 5 [argKind.rvalueOfU]
      = some ⟨⟨some 0, some 0⟩, ⟨1, 0, some 5⟩, 1, [true]⟩ ∧
    colocatedDestroy (⟨1, 0, some 5⟩ : cb_obj_state) ⟨some 0, some 0⟩
      = ⟨⟨0, 0, none⟩, 1, 0, 1⟩ := by
  decide

/-- C10: constructing an owning handle from a null-pointer literal and any
deletion strategy yields an empty handle: null `get()`, no control block,
`useCount() == 0` in every environment, and the deleter is never
invoked. -/
theorem C10_null_ctor_empty (deleterTag : Nat) (env : List control_block) :
    (sharedFromNullptr deleterTag).1 = ⟨none, none⟩ ∧
    (sharedFromNullptr deleterTag).1.get = none ∧
    (sharedFromNullptr deleterTag).1.cb = none ∧
    shared_ptr.use_count env (sharedFromNullptr deleterTag).1 = 0 ∧
    (sharedFromNullptr deleterTag).2 = [] := by
  exact ⟨rfl, rfl, rfl, rfl, rfl⟩

/-- C3: over every valid sequence of handle operations on one control
block, `delete_object()` has run at most once, it has run exactly when no
owning handle remains, and a step adds a `delete_object()` invocation iff
it is the strong release that takes `ref_cnt` from 1 to 0 - never a copy,
a weak-handle operation, or a lock, and never a second time. -/
theorem C3_payload_destroyed_once (ops : List Op) (s : MachineState)
    (h : run initState ops = some s) :
    s.destroyCount ≤ 1 ∧
    (s.destroyCount = 1 ↔ s.owners = 0) ∧
    (∀ op s', step s op = some s' →
      s'.destroyCount = s.destroyCount +
        (if op = Op.destroyShared ∧ s.cb.ref_cnt = 1 then 1 else 0)) := by
  obtain ⟨h1, h2, h3, h4⟩ := countInv_reachable h
  refine ⟨by rw [h3]; split <;> omega, by rw [h3]; split <;> omega, ?_⟩
  intro op s' hstep
  cases op <;> simp only [step] at hstep
  case copyShared =>
    split at hstep
    · exact absurd hstep (by simp)
    · cases hstep
      simp
  case destroyShared =>
    split at hstep
    · exact absurd hstep (by simp)
    · rename_i hown
      cases hstep
      simp only [true_and]
      rw [h1]
      split <;> (try split) <;> omega
  case weakFromShared =>
    split at hstep
    · exact absurd hstep (by simp)
    · cases hstep
      simp
  case copyWeak =>
    split at hstep
    · exact absurd hstep (by simp)
    · cases hstep
      simp
  case destroyWeak =>
    split at hstep
    · exact absurd hstep (by simp)
    · cases hstep
      simp
  case lockOp =>
    split at hstep
    · exact absurd hstep (by simp)
    · split at hstep <;> cases hstep <;> simp

/-- C3 witness: after a copy and one destruction the block is back to one
owner and the payload has not been destroyed; the conclusion holds at this
reachable state. -/
theorem C3_payload_destroyed_once_witness :
    (run initState [Op.copyShared, Op.destroyShared]
      = some ⟨⟨1, 0⟩, 1, 0, 0, 0⟩) ∧
    ((⟨⟨1, 0⟩, 1, 0, 0, 0⟩ : MachineState).destroyCount ≤ 1 ∧
     ((⟨⟨1, 0⟩, 1, 0, 0, 0⟩ : MachineState).destroyCount = 1 ↔
       (⟨⟨1, 0⟩, 1, 0, 0, 0⟩ : MachineState).owners = 0) ∧
     (∀ op s', step ⟨⟨1, 0⟩, 1, 0, 0, 0⟩ op = some s' →
       s'.destroyCount = (⟨⟨1, 0⟩, 1, 0, 0, 0⟩ : MachineState).destroyCount +
         (if op = Op.destroyShared ∧
             (⟨⟨1, 0⟩, 1, 0, 0, 0⟩ : MachineState).cb.ref_cnt = 1
          then 1 else 0))) :=
  ⟨by decide, C3_payload_destroyed_once [Op.copyShared, Op.destroyShared] ⟨⟨1, 0⟩, 1, 0, 0, 0⟩ (by decide)⟩

/-- C4: over every valid sequence of handle operations on one control
block, `delete cb` has run at most once, it has run exactly when both the
strong and the weak side are exhausted, a block with no owners but
surviving observers is never freed, and a step adds a `delete cb` event
iff it is the decrement - strong or weak - after which both counters are
zero. -/
theorem C4_block_freed_once (ops : List Op) (s : MachineState)
    (h : run initState ops = some s) :
    s.freeCount ≤ 1 ∧
    (s.freeCount = 1 ↔ (s.owners = 0 ∧ s.observers = 0)) ∧
    (s.owners = 0 → 0 < s.observers → s.freeCount = 0) ∧
    (∀ op s', step s op = some s' →
      s'.freeCount = s.freeCount +
        (if (op = Op.destroyShared ∧ s.cb.ref_cnt = 1 ∧ s.cb.weak_cnt = 0) ∨
            (op = Op.destroyWeak ∧ s.cb.ref_cnt = 0 ∧ s.cb.weak_cnt = 1)
         then 1 else 0)) := by
  obtain ⟨h1, h2, h3, h4⟩ := countInv_reachable h
  refine ⟨by rw [h4]; split <;> omega,
          by rw [h4]; split <;> (try split) <;> omega,
          by intro hz hobs; rw [h4]; split <;> omega, ?_⟩
  intro op s' hstep
  cases op <;> simp only [step] at hstep
  case copyShared =>
    split at hstep
    · exact absurd hstep (by simp)
    · cases hstep
      simp
  case destroyShared =>
    split at hstep
    · exact absurd hstep (by simp)
    · rename_i hown
      cases hstep
      simp only [true_and, reduceCtorEq, false_and, or_false]
      rw [h1]
      split <;> (try split) <;> omega
  case weakFromShared =>
    split at hstep
    · exact absurd hstep (by simp)
    · cases hstep
      simp
  case copyWeak =>
    split at hstep
    · exact absurd hstep (by simp)
    · cases hstep
      simp
  case destroyWeak =>
    split at hstep
    · exact absurd hstep (by simp)
    · rename_i hobs
      cases hstep
      simp only [true_and, reduceCtorEq, false_and, false_or]
      rw [h2]
      split <;> (try split) <;> omega
  case lockOp =>
    split at hstep
    · exact absurd hstep (by simp)
    · split at hstep <;> cases hstep <;> simp

/-- C4 witness: after creating an observer and destroying the only owner,
the payload is gone but the block survives (one observer remains, no
`delete cb` yet); the conclusion holds at this reachable state. -/
theorem C4_block_freed_once_witness :
    (run initState [Op.weakFromShared, Op.destroyShared]
      = some ⟨⟨0, 1⟩, 0, 1, 1, 0⟩) ∧
    ((⟨⟨0, 1⟩, 0, 1, 1, 0⟩ : MachineState).freeCount ≤ 1 ∧
     ((⟨⟨0, 1⟩, 0, 1, 1, 0⟩ : MachineState).freeCount = 1 ↔
       ((⟨⟨0, 1⟩, 0, 1, 1, 0⟩ : MachineState).owners = 0 ∧
        (⟨⟨0, 1⟩, 0, 1, 1, 0⟩ : MachineState).observers = 0)) ∧
     ((⟨⟨0, 1⟩, 0, 1, 1, 0⟩ : MachineState).owners = 0 →
       0 < (⟨⟨0, 1⟩, 0, 1, 1, 0⟩ : MachineState).observers →
       (⟨⟨0, 1⟩, 0, 1, 1, 0⟩ : MachineState).freeCount = 0) ∧
     (∀ op s', step ⟨⟨0, 1⟩, 0, 1, 1, 0⟩ op = some s' →
       s'.freeCount = (⟨⟨0, 1⟩, 0, 1, 1, 0⟩ : MachineState).freeCount +
         (if (op = Op.destroyShared ∧
               (⟨⟨0, 1⟩, 0, 1, 1, 0⟩ : MachineState).cb.ref_cnt = 1 ∧
               (⟨⟨0, 1⟩, 0, 1, 1, 0⟩ : MachineState).cb.weak_cnt = 0) ∨
             (op = Op.destroyWeak ∧
               (⟨⟨0, 1⟩, 0, 1, 1, 0⟩ : MachineState).cb.ref_cnt = 0 ∧
               (⟨⟨0, 1⟩, 0, 1, 1, 0⟩ : MachineState).cb.weak_cnt = 1)
          then 1 else 0))) :=
  ⟨by decide, C4_block_freed_once [Op.weakFromShared, Op.destroyShared] ⟨⟨0, 1⟩, 0, 1, 1, 0⟩ (by decide)⟩

/-- C5: after every valid sequence of handle copies and destructions
starting from the handle that created the block, `use_count()` of any live
handle over the block returns the block's `ref_cnt`, which equals the
number of currently-live owning handles; `use_count()` of an empty handle
is 0 in every environment. -/
theorem C5_use_count_counts_owners (ops : List Op) (s : MachineState)
    (h : run initState ops = some s) :
    (∀ p : Option Nat, shared_ptr.use_count [s.cb] ⟨some 0, p⟩ = s.owners) ∧
    (∀ (env : List control_block) (q : Option Nat),
      shared_ptr.use_count env ⟨none, q⟩ = 0) := by
  obtain ⟨h1, h2, h3, h4⟩ := countInv_reachable h
  constructor
  · intro p
    simpa [shared_ptr.use_count, control_block.use_count] using h1
  · intro env q
    rfl

/-- C5 witness: after one copy there are two live owners and `use_count()`
reports 2 at the reachable state, while an empty handle reports 0. -/
theorem C5_use_count_counts_owners_witness :
    (run initState [Op.copyShared] = some ⟨⟨2, 0⟩, 2, 0, 0, 0⟩) ∧
    ((∀ p : Option Nat,
       shared_ptr.use_count [(⟨⟨2, 0⟩, 2, 0, 0, 0⟩ : MachineState).cb] ⟨some 0, p⟩
         = (⟨⟨2, 0⟩, 2, 0, 0, 0⟩ : MachineState).owners) ∧
     (∀ (env : List control_block) (q : Option Nat),
       shared_ptr.use_count env ⟨none, q⟩ = 0)) :=
  ⟨by decide, C5_use_count_counts_owners [Op.copyShared] ⟨⟨2, 0⟩, 2, 0, 0, 0⟩ (by decide)⟩

/-- C2: `lock()` on an observer handle returns a non-empty owning handle
sharing the observer's control block and value pointer and increments that
block's strong count by one (touching nothing else) iff a control block is
present and its strong count is nonzero at call time; otherwise it returns
an empty owning handle with `useCount() == 0` and leaves the environment
unchanged. -/
theorem C2_lock_promotes_iff_alive (env : List control_block) (w : weak_ptr) :
    (∀ i, w.cb = some i → i < env.length →
      (((env.getD i default).ref_cnt ≠ 0 →
         (weak_ptr.lock env w).1.cb = some i ∧
         (weak_ptr.lock env w).1.get = w.ptr ∧
         ((weak_ptr.lock env w).2.getD i default).ref_cnt
           = (env.getD i default).ref_cnt + 1 ∧
         ((weak_ptr.lock env w).2.getD i default).weak_cnt
           = (env.getD i default).weak_cnt ∧
         (∀ j, j ≠ i →
           (weak_ptr.lock env w).2.getD j default = env.getD j default) ∧
         shared_ptr.use_count (weak_ptr.lock env w).2 (weak_ptr.lock env w).1
           = (env.getD i default).ref_cnt + 1) ∧
       ((env.getD i default).ref_cnt = 0 →
         (weak_ptr.lock env w).1 = ⟨none, none⟩ ∧
         (weak_ptr.lock env w).2 = env ∧
         shared_ptr.use_count (weak_ptr.lock env w).2 (weak_ptr.lock env w).1
           = 0))) ∧
    (w.cb = none →
      (weak_ptr.lock env w).1 = ⟨none, none⟩ ∧
      (weak_ptr.lock env w).2 = env ∧
      shared_ptr.use_count (weak_ptr.lock env w).2 (weak_ptr.lock env w).1 = 0) ∧
    ((weak_ptr.lock env w).1.cb ≠ none ↔
      ∃ i, w.cb = some i ∧ (env.getD i default).ref_cnt ≠ 0) := by
  refine ⟨?_, ?_, ?_⟩
  · intro i hcb hlen
    constructor
    · intro hnz
      have hlock : weak_ptr.lock env w
          = (⟨some i, w.ptr⟩, env.set i ((env.getD i default).add_ref)) := by
        simp only [weak_ptr.lock, hcb, control_block.use_count, if_pos hnz]
      rw [hlock]
      refine ⟨rfl, rfl, ?_, ?_, ?_, ?_⟩
      · rw [getD_set_self env i _ hlen]
        rfl
      · rw [getD_set_self env i _ hlen]
        rfl
      · intro j hj
        exact getD_set_ne env i j _ hj
      · simp only [shared_ptr.use_count, control_block.use_count]
        rw [getD_set_self env i _ hlen]
        rfl
    · intro hz
      have hlock : weak_ptr.lock env w = (⟨none, none⟩, env) := by
        simp only [weak_ptr.lock, hcb, control_block.use_count, hz]
        simp
      rw [hlock]
      exact ⟨rfl, rfl, rfl⟩
  · intro hnone
    have hlock : weak_ptr.lock env w = (⟨none, none⟩, env) := by
      simp only [weak_ptr.lock, hnone]
    rw [hlock]
    exact ⟨rfl, rfl, rfl⟩
  · cases hcb : w.cb with
    | none =>
        have hlock : weak_ptr.lock env w = (⟨none, none⟩, env) := by
          simp only [weak_ptr.lock, hcb]
        rw [hlock]
        constructor
        · intro hfalse
          exact absurd rfl hfalse
        · rintro ⟨j, hj, hnzj⟩
          cases hj
    | some i =>
        by_cases hz : (env.getD i default).ref_cnt = 0
        · have hlock : weak_ptr.lock env w = (⟨none, none⟩, env) := by
            simp only [weak_ptr.lock, hcb, control_block.use_count, hz]
            simp
          rw [hlock]
          constructor
          · intro hfalse
            exact absurd rfl hfalse
          · rintro ⟨j, hj, hnzj⟩
            injection hj with hj
            subst hj
            exact absurd hz hnzj
        · have hlock : weak_ptr.lock env w
              = (⟨some i, w.ptr⟩, env.set i ((env.getD i default).add_ref)) := by
            simp only [weak_ptr.lock, hcb, control_block.use_count, if_pos hz]
          rw [hlock]
          constructor
          · intro _
            exact ⟨i, rfl, hz⟩
          · intro _
            simp

/-- C2 witness: locking an observer of block 0 (strong count 1, value
pointer 5) succeeds: the result shares block 0 with pointer 5 and the
strong count becomes 2. -/
theorem C2_lock_promotes_iff_alive_witness :
    (weak_ptr.lock [⟨1, 0⟩] ⟨some 0, some 5⟩).1.cb = some 0 ∧
    (weak_ptr.lock [⟨1, 0⟩] ⟨some 0, some 5⟩).1.get = some 5 ∧
    ((weak_ptr.lock [⟨1, 0⟩] ⟨some 0, some 5⟩).2.getD 0 default).ref_cnt = 2 ∧
    ((weak_ptr.lock [⟨1, 0⟩] ⟨some 0, some 5⟩).2.getD 0 default).weak_cnt = 0 ∧
    shared_ptr.use_count (weak_ptr.lock [⟨1, 0⟩] ⟨some 0, some 5⟩).2
      (weak_ptr.lock [⟨1, 0⟩] ⟨some 0, some 5⟩).1 = 2 :=
  have h := ((C2_lock_promotes_iff_alive [⟨1, 0⟩] ⟨some 0, some 5⟩).1 0 rfl
    (by decide)).1 (by decide)
  ⟨h.1, h.2.1, h.2.2.1, h.2.2.2.1, h.2.2.2.2.2⟩

/-- C7 counterexample to the claim as stated: two owning handles over the
same block (strong count 2, both holding pointer 1); move-assigning one
into the other leaves the source empty and the destination holding the
block, but the block's strong count drops from 2 to 1 - the move changed
a strong count, where the claim says no count is changed. -/
theorem C7_move_assign_changes_count :
    ((([⟨2, 0⟩] : List control_block).getD 0 default).ref_cnt = 2) ∧
    (moveAssign [⟨2, 0⟩] ⟨some 0, some 1⟩ ⟨some 0, some 1⟩).srcAfter
      = ⟨none, none⟩ ∧
    (moveAssign [⟨2, 0⟩] ⟨some 0, some 1⟩ ⟨some 0, some 1⟩).dstAfter
      = ⟨some 0, some 1⟩ ∧
    ((moveAssign [⟨2, 0⟩] ⟨some 0, some 1⟩ ⟨some 0, some 1⟩).env.getD 0
        default).ref_cnt = 1 := by
  decide

/-- C7 amended: a move leaves the source handle empty (`get() == nullptr`,
`useCount() == 0`) and the destination holds the source's former control
block and value pointer; move construction changes no strong or weak
count, and move assignment changes no count beyond releasing the
destination's previous ownership, which decrements the strong count of
the destination's former block by one (no environment change at all when
the destination was empty, and no other block is touched). -/
theorem C7_move_transfers_and_empties (env : List control_block)
    (dst src : shared_ptr) :
    moveConstruct src = (⟨src.cb, src.ptr⟩, ⟨none, none⟩) ∧
    (moveConstruct src).2.get = none ∧
    shared_ptr.use_count env (moveConstruct src).2 = 0 ∧
    (moveAssign env dst src).dstAfter = ⟨src.cb, src.ptr⟩ ∧
    (moveAssign env dst src).srcAfter = ⟨none, none⟩ ∧
    (moveAssign env dst src).srcAfter.get = none ∧
    shared_ptr.use_count (moveAssign env dst src).env
      (moveAssign env dst src).srcAfter = 0 ∧
    (dst.cb = none → (moveAssign env dst src).env = env) ∧
    (∀ i, dst.cb = some i → i < env.length →
      ((moveAssign env dst src).env.getD i default).ref_cnt
        = (env.getD i default).ref_cnt - 1 ∧
      ((moveAssign env dst src).env.getD i default).weak_cnt
        = (env.getD i default).weak_cnt ∧
      ∀ j, j ≠ i →
        (moveAssign env dst src).env.getD j default = env.getD j default) := by
  refine ⟨rfl, rfl, rfl, rfl, rfl, rfl, rfl, ?_, ?_⟩
  · intro hnone
    simp only [moveAssign, shared_ptr.destruct, hnone]
  · intro i hcb hlen
    simp only [moveAssign, shared_ptr.destruct, hcb]
    refine ⟨?_, ?_, ?_⟩
    · rw [getD_set_self env i _ hlen]
    · rw [getD_set_self env i _ hlen]
    · intro j hj
      exact getD_set_ne env i j _ hj

/-- C7 amended witness: moving a handle over block 0 into a destination
owning block 1 (strong count 3, weak count 1): the destination takes block
0 with pointer 4, the source is emptied, and block 1's strong count drops
to 2 with its weak count untouched. -/
theorem C7_move_transfers_and_empties_witness :
    (moveAssign [⟨1, 0⟩, ⟨3, 1⟩] ⟨some 1, some 9⟩ ⟨some 0, some 4⟩).dstAfter
      = ⟨some 0, some 4⟩ ∧
    (moveAssign [⟨1, 0⟩, ⟨3, 1⟩] ⟨some 1, some 9⟩ ⟨some 0, some 4⟩).srcAfter
      = ⟨none, none⟩ ∧
    ((moveAssign [⟨1, 0⟩, ⟨3, 1⟩] ⟨some 1, some 9⟩ ⟨some 0, some 4⟩).env.getD 1
        default).ref_cnt = 2 ∧
    ((moveAssign [⟨1, 0⟩, ⟨3, 1⟩] ⟨some 1, some 9⟩ ⟨some 0, some 4⟩).env.getD 1
        default).weak_cnt = 1 :=
  have h := C7_move_transfers_and_empties [⟨1, 0⟩, ⟨3, 1⟩] ⟨some 1, some 9⟩
    ⟨some 0, some 4⟩
  ⟨h.2.2.2.1, h.2.2.2.2.1,
   (h.2.2.2.2.2.2.2.2 1 rfl (by decide)).1,
   (h.2.2.2.2.2.2.2.2 1 rfl (by decide)).2.1⟩
